import Mathlib

/-!
Verification development for the Man_Bot retrieval-augmented advice server.

The definitions below are a shallow embedding of the Python sources:

* `src/server/app.py` — the FastAPI retrieval server: `embed_text`,
  `call_llm`, `search_knowledge_units`, `build_llm_prompt`, `chat_endpoint`;
* `src/scripts/load_knowledge.py` — the ingestion pipeline:
  `EmbeddingGenerator.generate`, `DatabaseLoader.insert_knowledge_unit`
  and the per-file loading step of `main`.

Modelling conventions:

* Calls to an external provider (Google / OpenAI / DeepSeek) are modelled by a
  function `String → ProviderResult α`: `ProviderResult.ok` is a successful
  API response, `ProviderResult.err` is a raised exception carrying its
  message, i.e. the `except Exception as e` boundary of the Python code.
* Python's global `random` module is modelled by an explicit generator state
  (`PyRandom`, a seed function and a step function) threaded through the
  code, so that `random.seed(...)` overwriting the hidden global state is
  visible in the embedding.  `hashlib.md5(...).hexdigest()` read as an
  integer is modelled by an arbitrary hash function `String → ℕ`.
* The PostgreSQL/pgvector store is modelled as a list of rows in storage
  order.  The query built by `search_knowledge_units` is represented by its
  condition list (each condition keeps the hard-coded placeholder number it
  references: `$2`…`$5`) together with the positional parameter list that the
  code actually sends.  Executing the query first checks, as PostgreSQL
  does at bind time, that every referenced placeholder exists and has the
  type the condition needs, then filters, sorts by the engine's
  cosine-distance operator `<=>` (modelled by an arbitrary distance function
  `dist`, sorted stably so that rows at equal distance keep storage order —
  the SQL contains no secondary sort key) and applies `LIMIT top_k`.
* Python strings are modelled by `String`; `s[:n]` is `pySlice n s` (the
  first `n` characters) and `s.upper()` is `pyUpper s` (character-wise
  uppercase).  Embedding vectors are `List ℚ`.
-/

namespace ManBot

/-- Result of one call to an external provider: a successful payload, or a
raised exception carried as its message (the `try`/`except` boundary). -/
inductive ProviderResult (α : Type) where
  | ok (v : α)
  | err (e : String)
deriving DecidableEq

/-- Python `s.upper()`: character-wise uppercase. -/
def pyUpper (s : String) : String := String.mk (s.data.map Char.toUpper)

/-- Python `s[:n]`: the first `n` characters of `s`. -/
def pySlice (n : ℕ) (s : String) : String := String.mk (s.data.take n)

/-- Request filter model `ChatFilters` (`src/server/app.py`): every field is
`Optional` and defaults to `None`. -/
structure ChatFilters where
  level : Option String
  stage : Option (List String)
  channel : Option (List String)
  goal : Option (List String)
deriving DecidableEq

/-- One stored row of the `knowledge_units` table, with the columns the
server's query reads (`id` and timestamps are omitted: the code never uses
them). -/
structure KURow where
  ku_id : String
  title : String
  content : String
  yaml : String
  user_level_fit : List String
  stage : List String
  channel : List String
  goal : List String
  embedding : List ℚ
deriving DecidableEq

/-- One history entry of `convo_history`: a Python `Dict[str, str]`, so both
keys may be missing — the code reads them with `msg.get("role", "user")` and
`msg.get('content', '')`. -/
structure Turn where
  role : Option String
  content : Option String
deriving DecidableEq

/-- `/chat` request body (`class ChatRequest`). -/
structure ChatRequest where
  user_message : String
  convo_history : List Turn
  filters : Option ChatFilters
deriving DecidableEq

/-- `/chat` response body (`class ChatResponse`): a plain success payload —
the endpoint has no error variant of its own. -/
structure ChatResponse where
  answer : String
  used_ku_ids : List String
deriving DecidableEq

/-- Python truthiness of an `Optional[List[str]]`: `None` and `[]` are falsy. -/
def optListTruthy : Option (List String) → Bool
  | none => false
  | some l => !l.isEmpty

/-- Python truthiness of an `Optional[str]`: `None` and `""` are falsy. -/
def optStrTruthy : Option String → Bool
  | none => false
  | some s => !s.isEmpty

/-- A value of the positional parameter list the server sends with its SQL
query: the query vector, a `text[]` array, or a single `text`. -/
inductive SqlParam where
  | vec (v : List ℚ)
  | strs (l : List String)
  | str (s : String)
deriving DecidableEq

/-- One `WHERE` condition of the built query, keeping the placeholder number
the Python code hard-codes into the SQL text (`stage && $2::text[]`,
`channel && $3::text[]`, `goal && $4::text[]`, `$5 = ANY(user_level_fit)`). -/
inductive SqlCond where
  | stageOverlap (idx : ℕ)
  | channelOverlap (idx : ℕ)
  | goalOverlap (idx : ℕ)
  | levelAny (idx : ℕ)
deriving DecidableEq

/-- The condition list and positional parameter list built by
`search_knowledge_units` (`src/server/app.py`, lines 108–132): conditions are
appended with fixed placeholder numbers `$2`…`$5`, while `sql_params` gets the
query vector followed by the values of only the present filters, in the fixed
key order `stage, channel, goal, ulf`. -/
def buildSearchQuery (query_embedding : List ℚ) (filters : Option ChatFilters) :
    List SqlCond × List SqlParam :=
  match filters with
  | none => ([], [SqlParam.vec query_embedding])
  | some f =>
    ((if optListTruthy f.stage then [SqlCond.stageOverlap 2] else []) ++
      (if optListTruthy f.channel then [SqlCond.channelOverlap 3] else []) ++
      (if optListTruthy f.goal then [SqlCond.goalOverlap 4] else []) ++
      (if optStrTruthy f.level then [SqlCond.levelAny 5] else []),
     SqlParam.vec query_embedding ::
      ((if optListTruthy f.stage then [SqlParam.strs (f.stage.getD [])] else []) ++
       (if optListTruthy f.channel then [SqlParam.strs (f.channel.getD [])] else []) ++
       (if optListTruthy f.goal then [SqlParam.strs (f.goal.getD [])] else []) ++
       (if optStrTruthy f.level then [SqlParam.str (f.level.getD "")] else [])))

/-- PostgreSQL array overlap `a && b`: the two arrays share an element. -/
def arrayOverlap (a b : List String) : Bool := a.any (fun x => b.contains x)

/-- Bind-time validity of one condition: the placeholder it references must
exist in the parameter list (placeholders are 1-based) and carry the type the
condition consumes; otherwise PostgreSQL rejects the query before running
it. -/
def condParamOk (ps : List SqlParam) : SqlCond → Bool
  | SqlCond.stageOverlap i =>
    match ps[i - 1]? with | some (SqlParam.strs _) => true | _ => false
  | SqlCond.channelOverlap i =>
    match ps[i - 1]? with | some (SqlParam.strs _) => true | _ => false
  | SqlCond.goalOverlap i =>
    match ps[i - 1]? with | some (SqlParam.strs _) => true | _ => false
  | SqlCond.levelAny i =>
    match ps[i - 1]? with | some (SqlParam.str _) => true | _ => false

/-- Truth of one condition on one row, reading the bound parameter. -/
def condHolds (ps : List SqlParam) (r : KURow) : SqlCond → Bool
  | SqlCond.stageOverlap i =>
    match ps[i - 1]? with
    | some (SqlParam.strs l) => arrayOverlap r.stage l
    | _ => false
  | SqlCond.channelOverlap i =>
    match ps[i - 1]? with
    | some (SqlParam.strs l) => arrayOverlap r.channel l
    | _ => false
  | SqlCond.goalOverlap i =>
    match ps[i - 1]? with
    | some (SqlParam.strs l) => arrayOverlap r.goal l
    | _ => false
  | SqlCond.levelAny i =>
    match ps[i - 1]? with
    | some (SqlParam.str s) => r.user_level_fit.contains s
    | _ => false

/-- One retrieved row together with the `similarity` column the query
computes as `1 - (embedding <=> $1::vector)`. -/
structure Scored where
  row : KURow
  similarity : ℚ
deriving DecidableEq

/-- The engine's `ORDER BY embedding <=> $1::vector`: a sort by ascending
distance to the query.  The SQL names no secondary key, so the model resolves
ties by keeping storage order (a stable sort). -/
def rankRows (dist : List ℚ → List ℚ → ℚ) (query_embedding : List ℚ)
    (rows : List KURow) : List KURow :=
  List.insertionSort
    (fun a b => dist query_embedding a.embedding ≤ dist query_embedding b.embedding) rows

/-- `search_knowledge_units` (`src/server/app.py`, lines 102–145): build the
condition and parameter lists, run the query.  PostgreSQL first checks every
referenced placeholder against the supplied parameters; a reference past the
end of the parameter list (or with the wrong type) makes the whole call
raise, which the model returns as `Except.error`.  Otherwise the matching
rows are sorted by the distance operator and cut to `LIMIT top_k`. -/
def search_knowledge_units (dist : List ℚ → List ℚ → ℚ) (db : List KURow)
    (query_embedding : List ℚ) (filters : Option ChatFilters) (top_k : ℕ) :
    Except String (List Scored) :=
  let cp := buildSearchQuery query_embedding filters
  if cp.1.all (condParamOk cp.2) then
    Except.ok
      (((rankRows dist query_embedding
          (db.filter (fun r => cp.1.all (condHolds cp.2 r)))).take top_k).map
        (fun r =>
          { row := r, similarity := 1 - dist query_embedding r.embedding }))
  else Except.error "there is no parameter for the referenced placeholder"

/-- Rendering of one history entry inside the loop of `build_llm_prompt`:
`f"{role.upper()}: {msg.get('content','')}\n"` with
`role = msg.get("role", "user")`. -/
def renderTurn (msg : Turn) : String :=
  pyUpper (msg.role.getD "user") ++ ": " ++ msg.content.getD "" ++ "\n"

/-- The `history_text` accumulator of `build_llm_prompt`: starts empty and
appends the rendering of each entry of `history[-5:]` in order. -/
def historyText (history : List Turn) : String :=
  ((history.drop (history.length - 5)).map renderTurn).foldl (fun r s => r ++ s) ""

/-- One knowledge block of `build_llm_prompt`:
`f"### Техника: {row['title']}\n\n{content[:500]}..."` — note the three dots
are part of the literal and are appended unconditionally. -/
def kuBlock (row : KURow) : String :=
  "### Техника: " ++ row.title ++ "\n\n" ++ pySlice 500 row.content ++ "..."

/-- `knowledge_text = "\n\n".join(knowledge_blocks)`. -/
def knowledgeText (ku_rows : List KURow) : String :=
  String.intercalate "\n\n" (ku_rows.map kuBlock)

/-- Opening of the prompt template up to and including the history header. -/
def promptPersona : String :=
  "Ты — профессиональный наставник по социальным взаимодействиям и соблазнению.\n\nИстория диалога:\n"

/-- The user-question section header of the prompt template. -/
def promptQuestionHeader : String := "\n\nВопрос пользователя:\n"

/-- The knowledge section header of the prompt template. -/
def promptKnowledgeHeader : String := "\n\nРелевантные техники из базы знаний:\n"

/-- The closing instruction of the prompt template. -/
def promptInstruction : String :=
  "\n\nДай практичный совет на основе этих техник. Будь конкретным, дай 1-3 варианта действий."

/-- `build_llm_prompt` (`src/server/app.py`, lines 148–178): the assembled
prompt string and the list of `ku_id` of every included row, in order. -/
def build_llm_prompt (user_message : String) (history : List Turn)
    (ku_rows : List KURow) : String × List String :=
  (promptPersona ++ historyText history ++ promptQuestionHeader ++ user_message ++
      promptKnowledgeHeader ++ knowledgeText ku_rows ++ promptInstruction,
   ku_rows.map KURow.ku_id)

/-- The state of Python's global `random` module, abstractly: `seedFn` maps a
seed value to a generator state, `nextFn` produces one `random.random()`
draw and the next state.  States are encoded as naturals. -/
structure PyRandom where
  seedFn : ℕ → ℕ
  nextFn : ℕ → ℚ × ℕ

/-- `n` successive `random.random()` draws from state `st`. -/
def drawN (R : PyRandom) : ℕ → ℕ → List ℚ × ℕ
  | 0, st => ([], st)
  | Nat.succ n, st =>
    let p := R.nextFn st
    let rest := drawN R n p.2
    (p.1 :: rest.1, rest.2)

/-- The fallback branch of `embed_text`:
`random.seed(int(hashlib.md5(text.encode()).hexdigest(), 16) % 10**8)` then
`[random.random() for _ in range(768)]`.  `random.seed` overwrites the
incoming generator state, which is therefore discarded. -/
def fallbackEmbedding (R : PyRandom) (md5Hash : String → ℕ) (text : String)
    (_rngState : ℕ) : List ℚ × ℕ :=
  drawN R 768 (R.seedFn (md5Hash text % 10 ^ 8))

/-- `embed_text` (`src/server/app.py`, lines 62–84): with no API key, the
pseudo-random fallback; otherwise the provider's embedding on success and the
same fallback when the provider raises.  The pair carries the resulting
generator state of the global `random` module. -/
def embed_text (apiKey : String) (provider : String → ProviderResult (List ℚ))
    (R : PyRandom) (md5Hash : String → ℕ) (text : String) (rngState : ℕ) :
    List ℚ × ℕ :=
  if apiKey = "" then fallbackEmbedding R md5Hash text rngState
  else
    match provider text with
    | ProviderResult.ok v => (v, rngState)
    | ProviderResult.err _ => fallbackEmbedding R md5Hash text rngState

/-- `call_llm` (`src/server/app.py`, lines 87–97): always returns a plain
string — a fixed warning when the key is missing, the provider's text on
success, and `"⚠️ Ошибка LLM: " + str(e)` when the provider raises. -/
def call_llm (apiKey : String) (llm : String → ProviderResult String)
    (prompt : String) : String :=
  if apiKey = "" then "⚠️ GOOGLE_API_KEY не настроен. Добавьте ключ в .env файл"
  else
    match llm prompt with
    | ProviderResult.ok text => text
    | ProviderResult.err e => "⚠️ Ошибка LLM: " ++ e

/-- `chat_endpoint` (`src/server/app.py`, lines 183–189): embed the message,
query the store (an exception from the store propagates, giving a server
error — the only failure the endpoint can produce), assemble the prompt,
call the LLM, and answer with a plain `ChatResponse`. -/
def chat_endpoint (apiKey : String) (provider : String → ProviderResult (List ℚ))
    (R : PyRandom) (md5Hash : String → ℕ) (llm : String → ProviderResult String)
    (dist : List ℚ → List ℚ → ℚ) (db : List KURow) (rngState : ℕ)
    (req : ChatRequest) : Except String ChatResponse :=
  let q_emb := (embed_text apiKey provider R md5Hash req.user_message rngState).1
  match search_knowledge_units dist db q_emb req.filters 8 with
  | Except.error e => Except.error e
  | Except.ok rows =>
    let pu := build_llm_prompt req.user_message req.convo_history (rows.map Scored.row)
    Except.ok { answer := call_llm apiKey llm pu.1, used_ku_ids := pu.2 }

/-- A `KnowledgeUnit` of the loader (`src/scripts/load_knowledge.py`,
dataclass at lines 32–46), with the fields that are persisted. -/
structure KnowledgeUnit where
  ku_id : String
  title : String
  content : String
  yaml_data : String
  level : String
  user_level_fit : List String
  stage : List String
  channel : List String
  goal : List String
  style : List String
  riskiness : Int
  embedding : List ℚ
deriving DecidableEq

/-- `EmbeddingGenerator.generate` (`src/scripts/load_knowledge.py`, lines
98–119): the provider's embedding on success; on any raised exception, the
all-zeros vector of the configured dimension. -/
def EmbeddingGenerator.generate (dimension : ℕ)
    (providerCall : String → ProviderResult (List ℚ)) (text : String) : List ℚ :=
  match providerCall text with
  | ProviderResult.ok v => v
  | ProviderResult.err _ => List.replicate dimension 0

/-- The `DO UPDATE` arm of the upsert: a stored unit whose `ku_id` conflicts
with the incoming one is overwritten by the incoming unit's fields (`title`,
`content`, `yaml`, `level`, all tag arrays, `riskiness`, `embedding` are all
set to `EXCLUDED`); other units are untouched. -/
def upsertReplace (ku : KnowledgeUnit) (u : KnowledgeUnit) : KnowledgeUnit :=
  if u.ku_id == ku.ku_id then ku else u

/-- `DatabaseLoader.insert_knowledge_unit` (`src/scripts/load_knowledge.py`,
lines 202–240): `INSERT ... ON CONFLICT (ku_id) DO UPDATE` — when a row with
the same `ku_id` exists it is overwritten by the new unit's fields, otherwise
the unit is appended.  (`updated_at = NOW()` is wall-clock time and is not
part of the model.) -/
def insert_knowledge_unit (store : List KnowledgeUnit) (ku : KnowledgeUnit) :
    List KnowledgeUnit :=
  if store.any (fun u => u.ku_id == ku.ku_id) then
    store.map (upsertReplace ku)
  else store ++ [ku]

/-- The text the loader embeds for one unit:
`f"{ku.title}\n{ku.content[:1000]}"` (`main`, line 306). -/
def embeddingInput (ku : KnowledgeUnit) : String :=
  ku.title ++ "\n" ++ pySlice 1000 ku.content

/-- One iteration of the loading loop of `main` (`src/scripts/load_knowledge.py`,
lines 305–315) for an already-parsed unit: generate the embedding (zeros on
provider failure) and upsert the unit into the store. -/
def ingest_unit (dimension : ℕ) (providerCall : String → ProviderResult (List ℚ))
    (store : List KnowledgeUnit) (ku : KnowledgeUnit) : List KnowledgeUnit :=
  insert_knowledge_unit store
    { ku with embedding := EmbeddingGenerator.generate dimension providerCall (embeddingInput ku) }

/-! Concrete inputs for the closed evaluations below. -/

/-- A concrete instantiation of the engine's distance operator, used only on
rows whose embeddings all equal the query embedding: there every distance
function — the engine's cosine distance included — takes one common value on
all of them, so the constant function is a faithful stand-in. -/
def cexDistZero : List ℚ → List ℚ → ℚ := fun _ _ => 0

/-- A concrete pseudo-random generator instantiation. -/
def cexPyRandom : PyRandom :=
  { seedFn := fun n => n, nextFn := fun st => ((st : ℚ), st + 1) }

/-- A concrete instantiation of the MD5-as-integer hash. -/
def cexHash : String → ℕ := fun s => s.length

/-- An LLM provider call that succeeds with a fixed answer. -/
def cexLlmOk : String → ProviderResult String :=
  fun _ => ProviderResult.ok "Подойди и скажи привет."

/-- An LLM provider call that raises. -/
def cexLlmErr : String → ProviderResult String :=
  fun _ => ProviderResult.err "429 Resource has been exhausted"

/-- An embedding provider call that raises (provider unreachable). -/
def cexErrEmbedProvider : String → ProviderResult (List ℚ) :=
  fun _ => ProviderResult.err "503 Service Unavailable"

/-- An embedding provider call that succeeds and happens to return exactly
the vector the fallback path would fabricate for the same text. -/
def cexOkFallbackProvider : String → ProviderResult (List ℚ) :=
  fun t => ProviderResult.ok (fallbackEmbedding cexPyRandom cexHash t 0).1

/-- A concrete `/chat` request without filters. -/
def cexChatReq : ChatRequest :=
  { user_message := "как начать разговор", convo_history := [], filters := none }

/-- A knowledge row whose content is far below the 500-character budget. -/
def shortKU : KURow :=
  { ku_id := "ku_short", title := "Комплимент", content := "Скажи что-то искреннее.",
    yaml := "", user_level_fit := ["новичок"], stage := ["Знакомство_холодное"],
    channel := ["оффлайн"], goal := ["разговор"], embedding := [1, 0] }

/-- A knowledge row tagged with channel `вечеринка`. -/
def cexChannelRow : KURow :=
  { ku_id := "ku_party", title := "Вечеринка", content := "Подойди в зоне бара.",
    yaml := "", user_level_fit := ["новичок"], stage := ["Знакомство_тёплое"],
    channel := ["вечеринка"], goal := ["разговор"], embedding := [1, 0] }

/-- A filter set with only `channel` present (stage, goal, level absent). -/
def cexChannelFilters : ChatFilters :=
  { level := none, stage := none, channel := some ["вечеринка"], goal := none }

/-- Stored first: the row with the larger `ku_id`. -/
def cexRowTieB : KURow :=
  { ku_id := "b", title := "Техника Б", content := "Вариант Б.", yaml := "",
    user_level_fit := ["новичок"], stage := [], channel := [], goal := [],
    embedding := [1, 0] }

/-- Stored second: the row with the smaller `ku_id`, same embedding. -/
def cexRowTieA : KURow :=
  { ku_id := "a", title := "Техника А", content := "Вариант А.", yaml := "",
    user_level_fit := ["новичок"], stage := [], channel := [], goal := [],
    embedding := [1, 0] }

/-- The retrieval result at `top_k = 1` on the two tie rows. -/
def cexTieResult : List Scored := [{ row := cexRowTieB, similarity := 1 - 0 }]

/-- A parsed knowledge unit for the loader evaluations. -/
def cexKUNew : KnowledgeUnit :=
  { ku_id := "ku_1", title := "Новая версия", content := "Обновлённый текст техники.",
    yaml_data := "", level := "база", user_level_fit := ["новичок"], stage := [],
    channel := [], goal := [], style := [], riskiness := 1, embedding := [] }

/-- An older unit already stored under the same `ku_id`. -/
def cexKUOld : KnowledgeUnit :=
  { ku_id := "ku_1", title := "Старая версия", content := "Прежний текст техники.",
    yaml_data := "", level := "база", user_level_fit := ["средний"], stage := [],
    channel := [], goal := [], style := [], riskiness := 2, embedding := [1] }

/-!  Theorems.  -/

/-- Claim C4 counterexample: when the generation provider raises, `call_llm`
returns the provider error embedded in the answer string through the success
channel, and this return value is indistinguishable from a genuine model
answer of the same text: there is no typed `GenerationFailure`. -/
theorem llm_error_in_success_channel :
    call_llm "key" cexLlmErr "prompt" = "⚠️ Ошибка LLM: 429 Resource has been exhausted"
    ∧ call_llm "key" (fun _ => ProviderResult.ok "⚠️ Ошибка LLM: 429 Resource has been exhausted") "prompt"
        = "⚠️ Ошибка LLM: 429 Resource has been exhausted" := by
  refine ⟨by decide, by decide⟩

/-- Claim C4 (amended): the Generator adapter never fails with a typed error;
`call_llm` always returns a plain string, and provider errors and the missing
credential come back through the success channel as warning strings. -/
theorem call_llm_total_adapter (apiKey : String) (llm : String → ProviderResult String)
    (prompt : String) :
    (apiKey = "" →
      call_llm apiKey llm prompt = "⚠️ GOOGLE_API_KEY не настроен. Добавьте ключ в .env файл")
    ∧ (∀ e, apiKey ≠ "" → llm prompt = ProviderResult.err e →
        call_llm apiKey llm prompt = "⚠️ Ошибка LLM: " ++ e)
    ∧ (∀ t, apiKey ≠ "" → llm prompt = ProviderResult.ok t →
        call_llm apiKey llm prompt = t) := by
  refine ⟨fun hk => by simp [call_llm, hk], fun e hk he => by simp [call_llm, hk, he],
    fun t hk ht => by simp [call_llm, hk, ht]⟩

/-- Claim C5: `build_llm_prompt` renders exactly the entries of
`history[-5:]` — the last five turns, kept in original order — each as
`ROLE: content` (role uppercased, missing keys defaulted); a history of at
most five turns is rendered whole. -/
theorem prompt_history_last_five (history : List Turn) :
    historyText history = String.join ((history.drop (history.length - 5)).map renderTurn)
    ∧ history.drop (history.length - 5) = (history.reverse.take 5).reverse
    ∧ (history.length ≤ 5 → history.drop (history.length - 5) = history) := by
  refine ⟨rfl, (List.rtake_eq_reverse_take_reverse history 5), fun h => by
    simp [Nat.sub_eq_zero_of_le h]⟩

set_option maxRecDepth 4096 in
/-- Claim C6 counterexample: on zero retrieved units the assembled prompt's
knowledge section renders as the empty string between its header and the
instruction suffix — no "no techniques found" marker line of any kind is
inserted (`used_ku_ids` is indeed `[]`). -/
theorem empty_retrieval_no_marker :
    knowledgeText [] = ""
    ∧ (build_llm_prompt "Как начать разговор?" [] []).1 =
        "Ты — профессиональный наставник по социальным взаимодействиям и соблазнению.\n\nИстория диалога:\n\n\nВопрос пользователя:\nКак начать разговор?\n\nРелевантные техники из базы знаний:\n\n\nДай практичный совет на основе этих техник. Будь конкретным, дай 1-3 варианта действий."
    ∧ (build_llm_prompt "Как начать разговор?" [] []).2 = [] := by
  refine ⟨rfl, by decide, rfl⟩

/-- Claim C6 (amended): on empty `retrieved_units` the prompt keeps its full
structural shape — persona framing, history section, question section,
knowledge header and instruction suffix — with an empty string in the
knowledge slot and no marker line, and `used_ku_ids = []`. -/
theorem empty_retrieval_prompt_structure (user_message : String) (history : List Turn) :
    (build_llm_prompt user_message history []).1 =
      promptPersona ++ historyText history ++ promptQuestionHeader ++ user_message ++
        promptKnowledgeHeader ++ "" ++ promptInstruction
    ∧ (build_llm_prompt user_message history []).2 = [] :=
  ⟨rfl, rfl⟩

/-- Claim C7 counterexample: a unit whose content is 23 characters — far
below the 500-character budget, so nothing is cut — still gets the `...`
truncation marker appended to its block. -/
theorem truncation_marker_always_appended :
    shortKU.content.length ≤ 500
    ∧ pySlice 500 shortKU.content = shortKU.content
    ∧ kuBlock shortKU = "### Техника: Комплимент\n\nСкажи что-то искреннее...." := by
  refine ⟨by decide, by decide, by decide⟩

/-- Claim C7 (amended): each retrieved unit contributes one block — its title
plus its content truncated to 500 characters — with the `...` marker appended
unconditionally, whether or not the content was cut; blocks keep the order of
`retrieved_units` and `used_ku_ids` lists their ids in the same order. -/
theorem ku_block_shape (r : KURow) (user_message : String) (history : List Turn)
    (ku_rows : List KURow) :
    kuBlock r = "### Техника: " ++ r.title ++ "\n\n" ++ pySlice 500 r.content ++ "..."
    ∧ (r.content.length ≤ 500 → pySlice 500 r.content = r.content)
    ∧ knowledgeText ku_rows = String.intercalate "\n\n" (ku_rows.map kuBlock)
    ∧ (build_llm_prompt user_message history ku_rows).2 = ku_rows.map KURow.ku_id := by
  refine ⟨rfl, ?_, rfl, rfl⟩
  intro hle
  show String.mk (r.content.data.take 500) = r.content
  rw [List.take_of_length_le hle]

/-- The pseudo-random fallback always draws exactly `n` values. -/
theorem drawN_fst_length (R : PyRandom) : ∀ (n st : ℕ), ((drawN R n st).1).length = n
  | 0, _ => rfl
  | Nat.succ n, st => by
    simp only [drawN, List.length_cons]
    rw [drawN_fst_length R n]

/-- Claim C9: with the embedding credential unset, the server's fallback
embedding is a deterministic function of the input text: `random.seed` is
driven only by the hash of the text, so the result does not depend on the
incoming generator state — two calls of `embed_text` on the same text agree —
and the vector always has 768 entries. -/
theorem fallback_embedding_deterministic
    (provider : String → ProviderResult (List ℚ)) (R : PyRandom)
    (md5Hash : String → ℕ) (text : String) (st1 st2 : ℕ) :
    (embed_text "" provider R md5Hash text st1).1 = (embed_text "" provider R md5Hash text st2).1
    ∧ ((embed_text "" provider R md5Hash text st1).1).length = 768 := by
  constructor
  · rfl
  · show ((fallbackEmbedding R md5Hash text st1).1).length = 768
    exact drawN_fst_length R 768 _

/-- Claim C1 counterexample: a `/chat` request served while the embedding
provider raises yields the same plain success response (HTTP 200, a normal
`ChatResponse`) as the identical request served by a healthy provider that
returns the very vector the fallback fabricates: the caller cannot
distinguish embedding failure from success, and no `EmbeddingFailure` error
is surfaced anywhere. -/
theorem chat_masks_embedding_failure :
    chat_endpoint "key" cexErrEmbedProvider cexPyRandom cexHash cexLlmOk cexDistZero [] 0 cexChatReq
      = Except.ok { answer := "Подойди и скажи привет.", used_ku_ids := [] }
    ∧ chat_endpoint "key" cexOkFallbackProvider cexPyRandom cexHash cexLlmOk cexDistZero [] 0 cexChatReq
      = Except.ok { answer := "Подойди и скажи привет.", used_ku_ids := [] } :=
  ⟨rfl, rfl⟩

/-- Claim C1 (amended): whenever the embedding provider raises on the user
message (with any credential, present or missing), `embed_text` silently
substitutes the pseudo-random fallback vector and `/chat` still answers with
a success response — the embedding failure is never surfaced to the caller. -/
theorem chat_embedding_fallback_success (apiKey : String)
    (provider : String → ProviderResult (List ℚ)) (R : PyRandom)
    (md5Hash : String → ℕ) (llm : String → ProviderResult String)
    (dist : List ℚ → List ℚ → ℚ) (db : List KURow) (st : ℕ)
    (m : String) (hist : List Turn) (e : String)
    (h : provider m = ProviderResult.err e) :
    (embed_text apiKey provider R md5Hash m st).1 = (fallbackEmbedding R md5Hash m st).1
    ∧ ∃ resp : ChatResponse,
        chat_endpoint apiKey provider R md5Hash llm dist db st
          { user_message := m, convo_history := hist, filters := none } = Except.ok resp := by
  constructor
  · by_cases hk : apiKey = "" <;> simp [embed_text, hk, h]
  · exact ⟨_, rfl⟩

/-- Witness for the amended C1 theorem at a concrete failing provider. -/
theorem chat_embedding_fallback_success_witness :
    cexErrEmbedProvider "привет" = ProviderResult.err "503 Service Unavailable"
    ∧ (embed_text "key" cexErrEmbedProvider cexPyRandom cexHash "привет" 0).1
        = (fallbackEmbedding cexPyRandom cexHash "привет" 0).1 :=
  ⟨rfl, (chat_embedding_fallback_success "key" cexErrEmbedProvider cexPyRandom cexHash
    cexLlmOk cexDistZero [] 0 "привет" [] "503 Service Unavailable" rfl).1⟩

/-- Claim C2 (evaluation at the failing input): with only `channel` set, the
code emits the condition `channel && $3::text[]` yet sends just two
positional parameters, so the referenced placeholder `$3` does not exist and
the store call raises — `/chat` propagates the error — although the store
holds a unit whose `channel` tags intersect the filter, which the claim says
must be returned. -/
theorem channel_only_filter_query_error :
    arrayOverlap cexChannelRow.channel ["вечеринка"] = true
    ∧ buildSearchQuery [1, 0] (some cexChannelFilters) =
        ([SqlCond.channelOverlap 3], [SqlParam.vec [1, 0], SqlParam.strs ["вечеринка"]])
    ∧ search_knowledge_units cexDistZero [cexChannelRow] [1, 0] (some cexChannelFilters) 8 =
        Except.error "there is no parameter for the referenced placeholder"
    ∧ chat_endpoint "key" (fun _ => ProviderResult.ok [1, 0]) cexPyRandom cexHash cexLlmOk
        cexDistZero [cexChannelRow] 0
        { user_message := "как начать разговор", convo_history := [],
          filters := some cexChannelFilters } =
        Except.error "there is no parameter for the referenced placeholder" := by
  refine ⟨by decide, by decide, rfl, rfl⟩

/-- Claim C3 counterexample: two stored units share the query's own embedding
vector, so the engine's cosine distance — like any distance function — gives
both the same score; the query carries no secondary `ku_id` sort key, so the
tie comes back in storage order `"b", "a"`, not ascending `ku_id`. -/
theorem tie_not_broken_by_ku_id :
    cexRowTieB.embedding = cexRowTieA.embedding
    ∧ cexRowTieB.ku_id = "b"
    ∧ cexRowTieA.ku_id = "a"
    ∧ (search_knowledge_units cexDistZero [cexRowTieB, cexRowTieA] [1, 0] none 8).map
        (fun l => l.map (fun s => s.row.ku_id)) = Except.ok ["b", "a"] := by
  refine ⟨rfl, rfl, rfl, rfl⟩

/-- Claim C3 (amended): every successful retrieval returns at most `top_k`
rows, ordered by descending similarity (equivalently, ascending engine
distance); no `ku_id` tie-break is applied — rows at exactly equal distance
keep storage order. -/
theorem retrieve_topk_sorted (dist : List ℚ → List ℚ → ℚ) (db : List KURow)
    (query_embedding : List ℚ) (filters : Option ChatFilters) (top_k : ℕ)
    (result : List Scored)
    (h : search_knowledge_units dist db query_embedding filters top_k = Except.ok result) :
    result.length ≤ top_k
    ∧ result.Pairwise (fun a b => b.similarity ≤ a.similarity) := by
  rw [search_knowledge_units] at h
  split at h
  case isFalse => exact absurd h (by simp)
  case isTrue =>
    have hres : result =
        ((rankRows dist query_embedding
            ((db.filter (fun r =>
              (buildSearchQuery query_embedding filters).1.all
                (condHolds (buildSearchQuery query_embedding filters).2 r))))).take top_k).map
          (fun r => { row := r, similarity := 1 - dist query_embedding r.embedding }) := by
      exact (Except.ok.injEq _ _).mp h.symm
    subst hres
    constructor
    · calc _ ≤ ((rankRows dist query_embedding _).take top_k).length := by
            rw [List.length_map]
          _ ≤ top_k := by
            rw [List.length_take]
            exact min_le_left _ _
    · have hsorted : (rankRows dist query_embedding
          ((db.filter (fun r =>
            (buildSearchQuery query_embedding filters).1.all
              (condHolds (buildSearchQuery query_embedding filters).2 r))))).Sorted
          (fun a b => dist query_embedding a.embedding ≤ dist query_embedding b.embedding) := by
        haveI : IsTotal KURow
            (fun a b => dist query_embedding a.embedding ≤ dist query_embedding b.embedding) :=
          ⟨fun a b => le_total _ _⟩
        haveI : IsTrans KURow
            (fun a b => dist query_embedding a.embedding ≤ dist query_embedding b.embedding) :=
          ⟨fun _ _ _ hab hbc => le_trans hab hbc⟩
        exact List.sorted_insertionSort _ _
      have htake := hsorted.sublist ((List.take_sublist top_k _))
      refine List.pairwise_map.mpr (htake.imp ?_)
      intro a b hab
      exact sub_le_sub_left hab 1

/-- Witness for the amended C3 theorem at a concrete store and `top_k = 1`. -/
theorem retrieve_topk_sorted_witness :
    search_knowledge_units cexDistZero [cexRowTieB, cexRowTieA] [1, 0] none 1
      = Except.ok cexTieResult
    ∧ cexTieResult.length ≤ 1 :=
  ⟨rfl, (retrieve_topk_sorted cexDistZero [cexRowTieB, cexRowTieA] [1, 0] none 1
    cexTieResult rfl).1⟩

/-- After an upsert, every stored unit that carries the ingested `ku_id`
equals the ingested unit (the later write's fields win). -/
theorem insert_ku_mem_id (store : List KnowledgeUnit) (ku : KnowledgeUnit) :
    ∀ u ∈ insert_knowledge_unit store ku, u.ku_id = ku.ku_id → u = ku := by
  intro u hu hid
  rw [insert_knowledge_unit] at hu
  split at hu
  case isTrue hany =>
    rcases List.mem_map.mp hu with ⟨v, hv, rfl⟩
    by_cases hvid : v.ku_id == ku.ku_id
    · simp [upsertReplace, hvid]
    · exfalso
      simp only [upsertReplace, if_neg hvid] at hid
      exact hvid (by simp [hid])
  case isFalse hany =>
    rcases List.mem_append.mp hu with hv | hv
    · exact absurd (List.any_eq_true.mpr ⟨u, hv, by simp [hid]⟩) hany
    · simpa using hv

/-- After an upsert into a store with pairwise-distinct ids, exactly one
stored unit carries the ingested `ku_id`. -/
theorem insert_ku_countP_one (store : List KnowledgeUnit) (ku : KnowledgeUnit)
    (h : (store.map KnowledgeUnit.ku_id).Nodup) :
    (insert_knowledge_unit store ku).countP (fun u => u.ku_id == ku.ku_id) = 1 := by
  cases hany : store.any (fun v => v.ku_id == ku.ku_id) with
  | true =>
    rw [insert_knowledge_unit, if_pos hany, List.countP_map]
    have hpt : ∀ u ∈ store,
        ((fun u : KnowledgeUnit => u.ku_id == ku.ku_id) ∘ upsertReplace ku) u = true ↔
          (fun u : KnowledgeUnit => u.ku_id == ku.ku_id) u = true := by
      intro u _
      by_cases hu : u.ku_id == ku.ku_id <;> simp [upsertReplace, hu]
    rw [List.countP_congr hpt]
    have hmem : ku.ku_id ∈ store.map KnowledgeUnit.ku_id := by
      rcases List.any_eq_true.mp hany with ⟨v, hv, hvb⟩
      exact List.mem_map.mpr ⟨v, hv, by simpa using hvb⟩
    have hcount := List.count_eq_one_of_mem h hmem
    rw [List.count_eq_countP, List.countP_map] at hcount
    exact hcount
  | false =>
    rw [insert_knowledge_unit, if_neg (by simp [hany]), List.countP_append]
    have h0 : store.countP (fun u => u.ku_id == ku.ku_id) = 0 := by
      rw [List.countP_eq_zero]
      intro u hu
      have hall : ∀ x ∈ store, (x.ku_id == ku.ku_id) = false := by
        simpa [List.any_eq_false] using hany
      simp [hall u hu]
    rw [h0]
    simp [List.countP_cons]

/-- Re-upserting the identical unit does not change the store. -/
theorem insert_ku_idem (store : List KnowledgeUnit) (ku : KnowledgeUnit) :
    insert_knowledge_unit (insert_knowledge_unit store ku) ku
      = insert_knowledge_unit store ku := by
  cases hany : store.any (fun v => v.ku_id == ku.ku_id) with
  | true =>
    have h1 : insert_knowledge_unit store ku = store.map (upsertReplace ku) := by
      rw [insert_knowledge_unit, if_pos hany]
    rw [h1, insert_knowledge_unit]
    have hany2 : (store.map (upsertReplace ku)).any (fun v => v.ku_id == ku.ku_id) = true := by
      rcases List.any_eq_true.mp hany with ⟨v, hv, hvb⟩
      refine List.any_eq_true.mpr ⟨upsertReplace ku v, List.mem_map.mpr ⟨v, hv, rfl⟩, ?_⟩
      simp [upsertReplace, hvb]
    rw [if_pos hany2, List.map_map]
    refine List.map_congr_left ?_
    intro u _
    show upsertReplace ku (upsertReplace ku u) = upsertReplace ku u
    by_cases hu : u.ku_id == ku.ku_id <;> simp [upsertReplace, hu]
  | false =>
    have h1 : insert_knowledge_unit store ku = store ++ [ku] := by
      rw [insert_knowledge_unit, if_neg (by simp [hany])]
    rw [h1, insert_knowledge_unit]
    have hany2 : (store ++ [ku]).any (fun v => v.ku_id == ku.ku_id) = true := by
      simp
    rw [if_pos hany2, List.map_append]
    have hall : ∀ x ∈ store, (x.ku_id == ku.ku_id) = false := by
      simpa [List.any_eq_false] using hany
    congr 1
    · rw [show store.map (upsertReplace ku) = store.map id from
        List.map_congr_left fun u hu => by simp [upsertReplace, hall u hu], List.map_id]
    · simp [upsertReplace]

/-- Claim C8: the loader's upsert-by-id semantics — ingesting a unit into a
store whose ids are pairwise distinct leaves exactly one unit under that id,
that unit carries the later write's fields, and re-ingesting the identical
unit a second time leaves the store unchanged (idempotence).  (`updated_at`,
a wall-clock timestamp, is outside the model.) -/
theorem upsert_semantics (store : List KnowledgeUnit) (ku : KnowledgeUnit)
    (h : (store.map KnowledgeUnit.ku_id).Nodup) :
    (insert_knowledge_unit store ku).countP (fun u => u.ku_id == ku.ku_id) = 1
    ∧ (∀ u ∈ insert_knowledge_unit store ku, u.ku_id = ku.ku_id → u = ku)
    ∧ insert_knowledge_unit (insert_knowledge_unit store ku) ku
        = insert_knowledge_unit store ku :=
  ⟨insert_ku_countP_one store ku h, insert_ku_mem_id store ku, insert_ku_idem store ku⟩

/-- Witness for the C8 theorem: a store holding an older version of `ku_1`. -/
theorem upsert_semantics_witness :
    ([cexKUOld].map KnowledgeUnit.ku_id).Nodup
    ∧ (insert_knowledge_unit [cexKUOld] cexKUNew).countP
        (fun u => u.ku_id == cexKUNew.ku_id) = 1 :=
  ⟨by decide, (upsert_semantics [cexKUOld] cexKUNew (by decide)).1⟩

/-- Claim C10: during ingestion, `EmbeddingGenerator.generate` never lets a
provider exception escape — on a raised provider error it returns the
all-zeros vector of the configured dimension, and the loading step persists
the unit with that zero vector instead of aborting it. -/
theorem ingest_zero_vector_on_provider_error (dimension : ℕ)
    (providerCall : String → ProviderResult (List ℚ))
    (store : List KnowledgeUnit) (ku : KnowledgeUnit) (e : String)
    (h : providerCall (embeddingInput ku) = ProviderResult.err e) :
    EmbeddingGenerator.generate dimension providerCall (embeddingInput ku)
      = List.replicate dimension 0
    ∧ (EmbeddingGenerator.generate dimension providerCall (embeddingInput ku)).length
        = dimension
    ∧ (∀ u ∈ ingest_unit dimension providerCall store ku, u.ku_id = ku.ku_id →
        u = { ku with embedding := List.replicate dimension 0 }) := by
  have hg : EmbeddingGenerator.generate dimension providerCall (embeddingInput ku)
      = List.replicate dimension 0 := by
    rw [EmbeddingGenerator.generate, h]
  refine ⟨hg, by rw [hg, List.length_replicate], ?_⟩
  intro u hu hid
  have hmem := insert_ku_mem_id store
    { ku with embedding := EmbeddingGenerator.generate dimension providerCall (embeddingInput ku) }
    u (by simpa [ingest_unit] using hu) (by simpa using hid)
  rw [hmem, hg]

/-- Witness for the C10 theorem: a raising provider and a concrete unit. -/
theorem ingest_zero_vector_witness :
    cexErrEmbedProvider (embeddingInput cexKUNew) = ProviderResult.err "503 Service Unavailable"
    ∧ EmbeddingGenerator.generate 4 cexErrEmbedProvider (embeddingInput cexKUNew)
        = List.replicate 4 0 :=
  ⟨rfl, (ingest_zero_vector_on_provider_error 4 cexErrEmbedProvider [] cexKUNew
    "503 Service Unavailable" rfl).1⟩

end ManBot
